import Mathlib

/-!
Shallow embedding of `src/run-with-policy.js`, the configuration-resolution
and command-construction wrapper around the Pulumi CLI, together with
theorems settling the specification claims about it.

The embedding makes the ambient process state (argv, environment variables,
working directory, script location, filesystem, subprocess spawning) an
explicit `Sys` value, and models the script as pure functions over it:
`scanArgs` is the argument-scanning loop, `parseArgsModel` is `parseArgs`,
`buildPulumiArgs` is the stack/policy-pack argument construction in `main`,
`mainModel` is `main`, and `wrapperMain` adds the top-level
`main().catch(...)` handler.
-/

/-- Outcome of `spawnSync` as observed by `runCommand`: either the child's
exit status, or a raised exception (abstracted to its message). -/
inductive SpawnOutcome where
  | ok (status : Nat)
  | err (msg : String)
deriving DecidableEq, Repr

/-- The ambient process state the script reads. Environment variables are
plain strings with `""` for unset, since the script only accesses them
through JavaScript truthiness (`process.env.X || ''`). `fsExists` models
`fs.existsSync`; `isDir` models `fs.statSync(dir).isDirectory()` with a
thrown exception folded into `false`, exactly as `directoryExists` does;
`spawn` models `spawnSync(cmd, args, { cwd })`. -/
structure Sys where
  argv : List String
  envPOLICY_DIR : String
  envPULUMI_PROJECT_DIR : String
  envPULUMI_STACK : String
  cwd : String
  dirname : String
  fsExists : String → Bool
  isDir : String → Bool
  spawn : String → List String → String → SpawnOutcome

/-- Mutable locals of the `parseArgs` scanning loop (lines 57-81). -/
structure ParsedArgs where
  policyDir : String
  projectDir : String
  stack : String
  command : String
  remainingArgs : List String
deriving DecidableEq, Repr

/-- The object literal `parseArgs` returns (lines 100-105). Note: the
source returns no `stack` field; the parsed stack value is dropped. -/
structure ResolvedConfig where
  policyDir : String
  projectDir : String
  command : String
  remainingArgs : List String
deriving DecidableEq, Repr

/-- The recognized command literals (line 74). -/
def commandList : List String := ["preview", "up", "refresh", "destroy"]

/-- Models Node `path.join(a, b)` for the plain directory/name arguments
this script passes (no normalization is needed for those inputs). -/
def pathJoin (a b : String) : String := a ++ "/" ++ b

/-- Models Node `path.resolve(p)` against the working directory, for the
path shapes this script produces: absolute paths are kept, a leading `./`
is dropped, the empty string resolves to the working directory itself,
and other relative paths are prefixed with the working directory. -/
def pathResolve (cwd p : String) : String :=
  match p.data with
  | [] => cwd
  | '/' :: _ => p
  | '.' :: '/' :: rest => cwd ++ "/" ++ String.mk rest
  | _ => cwd ++ "/" ++ p

/-- The `for` loop of `parseArgs` (lines 64-81). A flag consumes its
following token only when one exists (`i + 1 < args.length`); a command
literal stops the scan and replaces `remainingArgs` with `args.slice(i+1)`;
any other token is appended to `remainingArgs`. -/
def scanArgs : ParsedArgs → List String → ParsedArgs
  | st, [] => st
  | st, [a] =>
    if commandList.contains a then
      { st with command := a, remainingArgs := [] }
    else
      { st with remainingArgs := st.remainingArgs ++ [a] }
  | st, a :: v :: rest =>
    if a = "--policy-dir" then
      scanArgs { st with policyDir := v } rest
    else if a = "--project-dir" then
      scanArgs { st with projectDir := v } rest
    else if a = "--stack" then
      scanArgs { st with stack := v } rest
    else if commandList.contains a then
      { st with command := a, remainingArgs := v :: rest }
    else
      scanArgs { st with remainingArgs := st.remainingArgs ++ [a] } (v :: rest)

/-- The help check of `parseArgs` (line 52): `args.includes('--help') ||
args.includes('-h')`. -/
def helpRequested (argv : List String) : Bool :=
  argv.contains "--help" || argv.contains "-h"

/-- The loop's initial state (lines 57-61): environment values (or `""`)
and the defaults `command = 'preview'`, `remainingArgs = []`. -/
def initialState (sys : Sys) : ParsedArgs :=
  { policyDir := sys.envPOLICY_DIR
    projectDir := sys.envPULUMI_PROJECT_DIR
    stack := sys.envPULUMI_STACK
    command := "preview"
    remainingArgs := [] }

/-- The `policyDir` default (lines 84-93): when the scanned value is falsy,
use `./pulumiPolicy` if `fs.existsSync` reports it present (existence, not
directory-ness), else `path.join(__dirname, 'pulumiPolicy')`. -/
def defaultPolicyDir (sys : Sys) (d : String) : String :=
  if d = "" then
    if sys.fsExists "./pulumiPolicy" then "./pulumiPolicy"
    else pathJoin sys.dirname "pulumiPolicy"
  else d

/-- The `projectDir` default (lines 94-96). -/
def defaultProjectDir (sys : Sys) (d : String) : String :=
  if d = "" then pathJoin sys.dirname "pulumiTemplate" else d

/-- `parseArgs` (lines 48-106). `none` models the `--help`/`-h` path, where
`showHelp()` prints usage and calls `process.exit(0)` before any scanning
or filesystem access. Otherwise the scan runs, defaults are applied, and
both directory fields are made absolute by `path.resolve`. -/
def parseArgsModel (sys : Sys) : Option ResolvedConfig :=
  if helpRequested sys.argv then none
  else
    let st := scanArgs (initialState sys) sys.argv
    some
      { policyDir := pathResolve sys.cwd (defaultPolicyDir sys st.policyDir)
        projectDir := pathResolve sys.cwd (defaultProjectDir sys st.projectDir)
        command := st.command
        remainingArgs := st.remainingArgs }

/-- `directoryExists` (lines 182-188): `fs.statSync(dir).isDirectory()`
with any thrown error mapped to `false`. -/
def directoryExists (sys : Sys) (dir : String) : Bool := sys.isDir dir

/-- The argument construction of `main` (lines 236-242): prepend
`--stack <stack>` when the stack string is truthy and `--stack` is not
already among the passthrough arguments, then append
`--policy-pack <policyDir>`. -/
def buildPulumiArgs (stack policyDir : String) (remaining : List String) : List String :=
  (if stack ≠ "" ∧ remaining.contains "--stack" = false then
      "--stack" :: stack :: remaining
    else remaining) ++ ["--policy-pack", policyDir]

/-- How one execution of `main` ends: a process exit status, or an
exception escaping `main` (to be caught by `main().catch`). -/
inductive Outcome where
  | exited (code : Nat)
  | threw (msg : String)
deriving DecidableEq, Repr

/-- One subprocess invocation performed via `runCommand`. -/
structure SpawnCall where
  cmd : String
  args : List String
  cwd : String
deriving DecidableEq, Repr

/-- `main` (lines 193-254) plus the module-level configuration (lines
109-113): `--help` exits 0 (inside `parseArgs`); a missing `policyDir` or
`projectDir` directory exits 1 before any subprocess; otherwise `pulumi`
is invoked in `projectDir` with the constructed arguments, using the
module-level `PULUMI_STACK = process.env.PULUMI_STACK || ''` (line 112,
not the value scanned from `--stack`), and the child's status is the exit
status (status 0 returns normally, which ends the process with 0). The
second component records the subprocess invocations performed. -/
def mainModel (sys : Sys) : Outcome × List SpawnCall :=
  match parseArgsModel sys with
  | none => (Outcome.exited 0, [])
  | some cfg =>
    if directoryExists sys cfg.policyDir = false then (Outcome.exited 1, [])
    else if directoryExists sys cfg.projectDir = false then (Outcome.exited 1, [])
    else
      let args := cfg.command :: buildPulumiArgs sys.envPULUMI_STACK cfg.policyDir cfg.remainingArgs
      let call : SpawnCall := { cmd := "pulumi", args := args, cwd := cfg.projectDir }
      match sys.spawn "pulumi" args cfg.projectDir with
      | SpawnOutcome.err e => (Outcome.threw e, [call])
      | SpawnOutcome.ok n => (Outcome.exited n, [call])

/-- The whole process: `main().catch((error) => { log(...); process.exit(1) })`
(lines 257-260) maps any exception escaping `main` to exit status 1. -/
def wrapperMain (sys : Sys) : Nat × List SpawnCall :=
  match mainModel sys with
  | (Outcome.exited n, t) => (n, t)
  | (Outcome.threw _, t) => (1, t)

/-- The scanning loop can only change `policyDir` when it meets the literal
token `--policy-dir` in flag position; with that token absent from the
input, the field survives the scan unchanged. -/
theorem scanArgs_policyDir_stable :
    ∀ (l : List String) (st : ParsedArgs), "--policy-dir" ∉ l →
      (scanArgs st l).policyDir = st.policyDir
  | [], _, _ => rfl
  | [a], st, _ => by
      unfold scanArgs
      split
      · rfl
      · rfl
  | a :: v :: rest, st, h => by
      simp only [List.mem_cons, not_or] at h
      obtain ⟨h1, h2, h3⟩ := h
      unfold scanArgs
      rw [if_neg (fun hc => h1 hc.symm)]
      by_cases hp : a = "--project-dir"
      · rw [if_pos hp]
        exact scanArgs_policyDir_stable rest _ h3
      · rw [if_neg hp]
        by_cases hs : a = "--stack"
        · rw [if_pos hs]
          exact scanArgs_policyDir_stable rest _ h3
        · rw [if_neg hs]
          by_cases hcmd : commandList.contains a = true
          · rw [if_pos hcmd]
          · rw [if_neg hcmd]
            exact scanArgs_policyDir_stable (v :: rest) _
              (by simp only [List.mem_cons, not_or]; exact ⟨h2, h3⟩)

/-- C3: any exception escaping `main` — in the model, an error produced
while spawning the child — is caught by the top-level
`main().catch(...)` handler, which maps the execution to exit status
exactly 1. -/
theorem c3_top_level_catch (sys : Sys) (e : String)
    (h : (mainModel sys).1 = Outcome.threw e) : (wrapperMain sys).1 = 1 := by
  unfold wrapperMain
  rcases hm : mainModel sys with ⟨o, t⟩
  rw [hm] at h
  cases o with
  | exited n => exact absurd h (by simp)
  | threw m => rfl

/-- System state for the C3 witness: the `pulumi` binary is missing, so
spawning raises; both configured directories exist. -/
def sysC3 : Sys :=
  { argv := []
    envPOLICY_DIR := "/pp"
    envPULUMI_PROJECT_DIR := "/proj"
    envPULUMI_STACK := ""
    cwd := "/w"
    dirname := "/app"
    fsExists := fun _ => false
    isDir := fun _ => true
    spawn := fun _ _ _ => SpawnOutcome.err "spawnSync pulumi ENOENT" }

/-- Witness for C3 at a concrete state whose spawn raises. -/
theorem c3_top_level_catch_witness : (wrapperMain sysC3).1 = 1 :=
  c3_top_level_catch sysC3 "spawnSync pulumi ENOENT" (by decide)

/-- C6: in the argument construction of `main`, a set stack with no
literal `--stack` among the passthrough arguments yields an argument list
beginning with `--stack <stack>` before the passthrough arguments; a
passthrough list already containing `--stack` is forwarded unchanged with
no injection; and in every case `--policy-pack <policyDir>` is appended
at the end. -/
theorem c6_stack_and_policy_pack (s pd : String) (pt : List String) :
    (s ≠ "" → pt.contains "--stack" = false →
      buildPulumiArgs s pd pt = "--stack" :: s :: pt ++ ["--policy-pack", pd]) ∧
    (pt.contains "--stack" = true →
      buildPulumiArgs s pd pt = pt ++ ["--policy-pack", pd]) ∧
    (s = "" → buildPulumiArgs s pd pt = pt ++ ["--policy-pack", pd]) ∧
    (∃ front, buildPulumiArgs s pd pt = front ++ ["--policy-pack", pd]) := by
  unfold buildPulumiArgs
  refine ⟨?_, ?_, ?_, ?_⟩
  · intro hs hc
    rw [if_pos ⟨hs, hc⟩]
  · intro hc
    have hn : ¬(s ≠ "" ∧ pt.contains "--stack" = false) := by
      rintro ⟨_, h2⟩
      rw [hc] at h2
      exact Bool.noConfusion h2
    rw [if_neg hn]
  · intro hs
    have hn : ¬(s ≠ "" ∧ pt.contains "--stack" = false) := by
      rintro ⟨h1, _⟩
      exact h1 hs
    rw [if_neg hn]
  · by_cases h : s ≠ "" ∧ pt.contains "--stack" = false
    · exact ⟨"--stack" :: s :: pt, by rw [if_pos h]⟩
    · exact ⟨pt, by rw [if_neg h]⟩

/-- Witness for C6: with stack `dev` and passthrough `["--diff"]` the list
is `--stack dev --diff --policy-pack /pp`; with passthrough already
containing `--stack`, it is forwarded unchanged before `--policy-pack`. -/
theorem c6_stack_and_policy_pack_witness :
    buildPulumiArgs "dev" "/pp" ["--diff"] =
      ["--stack", "dev", "--diff", "--policy-pack", "/pp"] ∧
    buildPulumiArgs "dev" "/pp" ["--stack", "prod"] =
      ["--stack", "prod", "--policy-pack", "/pp"] :=
  ⟨(c6_stack_and_policy_pack "dev" "/pp" ["--diff"]).1 (by decide) (by decide),
   (c6_stack_and_policy_pack "dev" "/pp" ["--stack", "prod"]).2.1 (by decide)⟩

/-- C7: when both resolved directories exist and the spawned `pulumi`
child exits with status `n`, the wrapper performs exactly that one
subprocess invocation and itself exits with status `n` — status 0 exits 0
(success path), any other status is propagated verbatim via
`process.exit(pulumiResult)`. -/
theorem c7_exit_propagation (sys : Sys) (cfg : ResolvedConfig) (n : Nat)
    (hp : parseArgsModel sys = some cfg)
    (h1 : directoryExists sys cfg.policyDir = true)
    (h2 : directoryExists sys cfg.projectDir = true)
    (hs : sys.spawn "pulumi"
        (cfg.command :: buildPulumiArgs sys.envPULUMI_STACK cfg.policyDir cfg.remainingArgs)
        cfg.projectDir = SpawnOutcome.ok n) :
    wrapperMain sys =
      (n, [{ cmd := "pulumi"
             args := cfg.command ::
               buildPulumiArgs sys.envPULUMI_STACK cfg.policyDir cfg.remainingArgs
             cwd := cfg.projectDir }]) := by
  unfold wrapperMain mainModel
  rw [hp]
  simp [h1, h2, hs]

/-- System state for the C7 witness: `pulumi up --diff` with defaults in
play and a child that exits with status 7. -/
def sysC7 : Sys :=
  { argv := ["up", "--diff"]
    envPOLICY_DIR := ""
    envPULUMI_PROJECT_DIR := ""
    envPULUMI_STACK := ""
    cwd := "/w"
    dirname := "/app"
    fsExists := fun _ => true
    isDir := fun _ => true
    spawn := fun _ _ _ => SpawnOutcome.ok 7 }

/-- Witness for C7: child status 7 yields wrapper exit 7 after the single
delegated invocation. -/
theorem c7_exit_propagation_witness :
    wrapperMain sysC7 =
      (7, [{ cmd := "pulumi"
             args := ["up", "--diff", "--policy-pack", "/w/pulumiPolicy"]
             cwd := "/app/pulumiTemplate" }]) :=
  c7_exit_propagation sysC7
    { policyDir := "/w/pulumiPolicy"
      projectDir := "/app/pulumiTemplate"
      command := "up"
      remainingArgs := ["--diff"] }
    7 (by decide) (by decide) (by decide) (by decide)

/-- C8: a `--help` or `-h` token anywhere in argv makes the wrapper print
usage and exit with status 0, spawning no subprocess; the result is the
same for every filesystem and every environment, so no directory check
can influence it. -/
theorem c8_help_short_circuit (sys : Sys)
    (h : "--help" ∈ sys.argv ∨ "-h" ∈ sys.argv) : wrapperMain sys = (0, []) := by
  have hh : helpRequested sys.argv = true := by
    unfold helpRequested
    rcases h with h | h
    · simp [List.elem_iff, h]
    · simp [List.elem_iff, h]
  simp [wrapperMain, mainModel, parseArgsModel, hh]

/-- System state for the C8 witness: `-h` among other tokens, with a
filesystem on which every directory check fails. -/
def sysC8 : Sys :=
  { argv := ["--stack", "dev", "-h", "up"]
    envPOLICY_DIR := "/pp"
    envPULUMI_PROJECT_DIR := "/proj"
    envPULUMI_STACK := "dev"
    cwd := "/w"
    dirname := "/app"
    fsExists := fun _ => false
    isDir := fun _ => false
    spawn := fun _ _ _ => SpawnOutcome.err "must not be reached" }

/-- Witness for C8 at a concrete argv containing `-h`. -/
theorem c8_help_short_circuit_witness : wrapperMain sysC8 = (0, []) :=
  c8_help_short_circuit sysC8 (Or.inr (by decide))

/-- C9: when the resolved `projectDir` is not a directory on disk (and no
help flag is present, so a resolved config exists), the wrapper exits with
status 1 and performs no subprocess invocation — whether or not the
`policyDir` check before it also fails. -/
theorem c9_missing_project_dir (sys : Sys) (cfg : ResolvedConfig)
    (hp : parseArgsModel sys = some cfg)
    (h2 : directoryExists sys cfg.projectDir = false) :
    wrapperMain sys = (1, []) := by
  unfold wrapperMain mainModel
  rw [hp]
  by_cases h1 : directoryExists sys cfg.policyDir = false
  · simp [h1]
  · simp [h1, h2]

/-- System state for the C9 witness: no directory exists on disk. -/
def sysC9 : Sys :=
  { argv := []
    envPOLICY_DIR := "/pp"
    envPULUMI_PROJECT_DIR := "/proj"
    envPULUMI_STACK := ""
    cwd := "/w"
    dirname := "/app"
    fsExists := fun _ => false
    isDir := fun _ => false
    spawn := fun _ _ _ => SpawnOutcome.err "must not be reached" }

/-- Witness for C9 at a concrete state with a missing project directory. -/
theorem c9_missing_project_dir_witness : wrapperMain sysC9 = (1, []) :=
  c9_missing_project_dir sysC9
    { policyDir := "/pp", projectDir := "/proj", command := "preview", remainingArgs := [] }
    (by decide) (by decide)

/-- System state exhibiting the C1 bug: `--stack S` on the command line
while the environment sets `PULUMI_STACK=E`; both directories exist. -/
def sysC1 : Sys :=
  { argv := ["--stack", "S", "preview"]
    envPOLICY_DIR := "/pp"
    envPULUMI_PROJECT_DIR := "/proj"
    envPULUMI_STACK := "E"
    cwd := "/w"
    dirname := "/app"
    fsExists := fun _ => false
    isDir := fun _ => true
    spawn := fun _ _ _ => SpawnOutcome.ok 0 }

/-- C1 evaluated at the failing input: the scan does capture `S` from
`--stack S`, but `parseArgs` returns no stack field and `main` reads the
module-level `PULUMI_STACK` from the environment, so the delegated CLI is
invoked with `--stack E` — the environment value wins over the flag. -/
theorem c1_stack_flag_dropped :
    (scanArgs (initialState sysC1) sysC1.argv).stack = "S" ∧
    (mainModel sysC1).2 =
      [{ cmd := "pulumi"
         args := ["preview", "--stack", "E", "--policy-pack", "/pp"]
         cwd := "/proj" }] := by decide

/-- System state for the C2 counterexample: the unrecognized token `foo`
precedes the command literal `preview`, which is followed by `bar`. -/
def sysC2 : Sys :=
  { argv := ["foo", "preview", "bar"]
    envPOLICY_DIR := "/pp"
    envPULUMI_PROJECT_DIR := "/proj"
    envPULUMI_STACK := ""
    cwd := "/w"
    dirname := "/app"
    fsExists := fun _ => false
    isDir := fun _ => true
    spawn := fun _ _ _ => SpawnOutcome.ok 0 }

/-- C2 counterexample: with argv `foo preview bar`, the final
passthrough arguments are exactly `["bar"]` — the pre-command token `foo`
was appended during the scan but then discarded when `preview` replaced
`remainingArgs` with `args.slice(i+1)`. -/
theorem c2_counterexample :
    (parseArgsModel sysC2).map (fun c => c.remainingArgs) = some ["bar"] ∧
    (parseArgsModel sysC2).map (fun c => c.remainingArgs.contains "foo") = some false := by
  decide

/-- C2 as amended: a command literal replaces the accumulated passthrough
arguments with exactly the tokens that follow it, whatever had been
accumulated; a token that is neither a wrapper flag nor a command literal
is appended to the accumulator immediately. Pre-command tokens therefore
survive only when no command literal is encountered. -/
theorem c2_passthrough_replacement (st : ParsedArgs) (a t : String) (rest : List String) :
    (commandList.contains a = true →
      scanArgs st (a :: rest) = { st with command := a, remainingArgs := rest }) ∧
    ((["--policy-dir", "--project-dir", "--stack"] : List String).contains t = false →
      commandList.contains t = false →
      scanArgs st (t :: rest) =
        scanArgs { st with remainingArgs := st.remainingArgs ++ [t] } rest) := by
  constructor
  · intro hcmd
    have ha : a = "preview" ∨ a = "up" ∨ a = "refresh" ∨ a = "destroy" := by
      simpa [commandList] using hcmd
    cases rest with
    | nil =>
      unfold scanArgs
      rw [if_pos hcmd]
    | cons v rest2 =>
      unfold scanArgs
      rcases ha with h | h | h | h <;> subst h <;>
        rw [if_neg (by decide), if_neg (by decide), if_neg (by decide), if_pos (by decide)]
  · intro hf hc
    have h1 : ¬(t = "--policy-dir") := by
      intro h
      subst h
      exact absurd hf (by decide)
    have h2 : ¬(t = "--project-dir") := by
      intro h
      subst h
      exact absurd hf (by decide)
    have h3 : ¬(t = "--stack") := by
      intro h
      subst h
      exact absurd hf (by decide)
    have h4 : ¬(commandList.contains t = true) := by
      rw [hc]
      exact Bool.noConfusion
    cases rest with
    | nil =>
      unfold scanArgs
      rw [if_neg h4]
    | cons v rest2 =>
      conv_lhs => unfold scanArgs
      rw [if_neg h1, if_neg h2, if_neg h3, if_neg h4]

/-- Witness for the amended C2: a command literal replaces an accumulator
that already holds the pre-command token `foo`. -/
theorem c2_passthrough_replacement_witness :
    scanArgs
      { policyDir := "", projectDir := "", stack := "", command := "preview"
        remainingArgs := ["foo"] } ("up" :: ["x"]) =
      { policyDir := "", projectDir := "", stack := "", command := "up"
        remainingArgs := ["x"] } :=
  (c2_passthrough_replacement
    { policyDir := "", projectDir := "", stack := "", command := "preview"
      remainingArgs := ["foo"] } "up" "z" ["x"]).1 (by decide)

/-- System state for the C4 counterexample: `--policy-dir` is given with
the empty string as its value token, `POLICY_DIR` is set in the
environment, and no `./pulumiPolicy` is present. -/
def sysC4empty : Sys :=
  { argv := ["--policy-dir", "", "preview"]
    envPOLICY_DIR := "/env-pp"
    envPULUMI_PROJECT_DIR := "/proj"
    envPULUMI_STACK := ""
    cwd := "/w"
    dirname := "/app"
    fsExists := fun _ => false
    isDir := fun _ => true
    spawn := fun _ _ _ => SpawnOutcome.ok 0 }

/-- C4 counterexample: with `--policy-dir ""` before the command literal,
the resolved `policyDir` is the wrapper-relative default, not the
absolute form of the flag value — the empty value is falsy, so the
default logic of lines 84-93 runs as if no flag had been given. -/
theorem c4_counterexample :
    (parseArgsModel sysC4empty).map (fun c => c.policyDir) = some "/app/pulumiPolicy" ∧
    pathResolve sysC4empty.cwd "" = "/w" ∧
    ("/app/pulumiPolicy" : String) ≠ "/w" := by decide

/-- C4 as amended: when argv starts with `--policy-dir D`, the value `D`
is a nonempty token, `--policy-dir` occurs nowhere else in argv, and no
help flag is present, the resolved `policyDir` is the absolute form of
`D` for every environment — in particular the `POLICY_DIR` environment
value is overridden. -/
theorem c4_flag_overrides_env (sys : Sys) (D : String) (rest : List String)
    (cfg : ResolvedConfig)
    (hargv : sys.argv = "--policy-dir" :: D :: rest)
    (hD : D ≠ "")
    (hrest : "--policy-dir" ∉ rest)
    (hcfg : parseArgsModel sys = some cfg) :
    cfg.policyDir = pathResolve sys.cwd D := by
  have hscan : (scanArgs (initialState sys) sys.argv).policyDir = D := by
    rw [hargv]
    have hstep :
        scanArgs (initialState sys) ("--policy-dir" :: D :: rest) =
          scanArgs { initialState sys with policyDir := D } rest := by
      conv_lhs => unfold scanArgs
      rw [if_pos rfl]
    rw [hstep]
    exact scanArgs_policyDir_stable rest _ hrest
  unfold parseArgsModel at hcfg
  cases hh : helpRequested sys.argv with
  | true =>
    rw [hh] at hcfg
    exact absurd hcfg (by simp)
  | false =>
    rw [hh] at hcfg
    simp only [Bool.false_eq_true, if_false, Option.some.injEq] at hcfg
    rw [← hcfg]
    show pathResolve sys.cwd (defaultPolicyDir sys (scanArgs (initialState sys) sys.argv).policyDir) =
      pathResolve sys.cwd D
    rw [hscan]
    unfold defaultPolicyDir
    rw [if_neg hD]

/-- System state for the C4 witness: `--policy-dir /flag-pp` given while
`POLICY_DIR=/env-pp` is also set. -/
def sysC4flag : Sys :=
  { argv := ["--policy-dir", "/flag-pp", "preview"]
    envPOLICY_DIR := "/env-pp"
    envPULUMI_PROJECT_DIR := "/proj"
    envPULUMI_STACK := ""
    cwd := "/w"
    dirname := "/app"
    fsExists := fun _ => false
    isDir := fun _ => true
    spawn := fun _ _ _ => SpawnOutcome.ok 0 }

/-- Witness for the amended C4: the flag value `/flag-pp` wins over the
simultaneously set `POLICY_DIR=/env-pp`. -/
theorem c4_flag_overrides_env_witness :
    ({ policyDir := "/flag-pp", projectDir := "/proj", command := "preview"
       remainingArgs := [] } : ResolvedConfig).policyDir =
      pathResolve sysC4flag.cwd "/flag-pp" :=
  c4_flag_overrides_env sysC4flag "/flag-pp" ["preview"]
    { policyDir := "/flag-pp", projectDir := "/proj", command := "preview"
      remainingArgs := [] }
    (by decide) (by decide) (by decide) (by decide)

/-- System state for the C5 counterexample: `./pulumiPolicy` exists on
disk but is a plain file, not a directory. -/
def sysC5file : Sys :=
  { argv := []
    envPOLICY_DIR := ""
    envPULUMI_PROJECT_DIR := "/proj"
    envPULUMI_STACK := ""
    cwd := "/w"
    dirname := "/app"
    fsExists := fun _ => true
    isDir := fun _ => false
    spawn := fun _ _ _ => SpawnOutcome.ok 0 }

/-- C5 counterexample: `./pulumiPolicy` exists but is not a directory
(`isDir` is false on its resolved path), yet `policyDir` resolves to it
rather than to the wrapper-relative default the claim requires — the
source consults `fs.existsSync`, which tests existence, not
directory-ness. -/
theorem c5_counterexample :
    sysC5file.isDir (pathResolve sysC5file.cwd "./pulumiPolicy") = false ∧
    (parseArgsModel sysC5file).map (fun c => c.policyDir) = some "/w/pulumiPolicy" ∧
    ("/w/pulumiPolicy" : String) ≠
      pathResolve sysC5file.cwd (pathJoin sysC5file.dirname "pulumiPolicy") := by
  decide

/-- C5 as amended: with no `--policy-dir` flag and no `POLICY_DIR`
environment value, `policyDir` resolves to the absolute form of
`./pulumiPolicy` when that path exists as any filesystem entry
(`fs.existsSync`), and to the wrapper-relative default `pulumiPolicy`
otherwise. -/
theorem c5_policy_default (sys : Sys) (cfg : ResolvedConfig)
    (henv : sys.envPOLICY_DIR = "")
    (hflag : "--policy-dir" ∉ sys.argv)
    (hcfg : parseArgsModel sys = some cfg) :
    cfg.policyDir =
      if sys.fsExists "./pulumiPolicy" then pathResolve sys.cwd "./pulumiPolicy"
      else pathResolve sys.cwd (pathJoin sys.dirname "pulumiPolicy") := by
  have hscan : (scanArgs (initialState sys) sys.argv).policyDir = "" := by
    rw [scanArgs_policyDir_stable sys.argv _ hflag]
    exact henv
  unfold parseArgsModel at hcfg
  cases hh : helpRequested sys.argv with
  | true =>
    rw [hh] at hcfg
    exact absurd hcfg (by simp)
  | false =>
    rw [hh] at hcfg
    simp only [Bool.false_eq_true, if_false, Option.some.injEq] at hcfg
    rw [← hcfg]
    show pathResolve sys.cwd (defaultPolicyDir sys (scanArgs (initialState sys) sys.argv).policyDir) =
      if sys.fsExists "./pulumiPolicy" then pathResolve sys.cwd "./pulumiPolicy"
      else pathResolve sys.cwd (pathJoin sys.dirname "pulumiPolicy")
    rw [hscan]
    unfold defaultPolicyDir
    rw [if_pos rfl]
    cases hfs : sys.fsExists "./pulumiPolicy" <;> rfl

/-- System state for the C5 witness: no flag, no environment value, and a
directory `./pulumiPolicy` present in the working directory. -/
def sysC5dir : Sys :=
  { argv := []
    envPOLICY_DIR := ""
    envPULUMI_PROJECT_DIR := "/proj"
    envPULUMI_STACK := ""
    cwd := "/w"
    dirname := "/app"
    fsExists := fun _ => true
    isDir := fun _ => true
    spawn := fun _ _ _ => SpawnOutcome.ok 0 }

/-- Witness for the amended C5 in the exists branch. -/
theorem c5_policy_default_witness :
    ({ policyDir := "/w/pulumiPolicy", projectDir := "/proj", command := "preview"
       remainingArgs := [] } : ResolvedConfig).policyDir =
      if sysC5dir.fsExists "./pulumiPolicy" then pathResolve sysC5dir.cwd "./pulumiPolicy"
      else pathResolve sysC5dir.cwd (pathJoin sysC5dir.dirname "pulumiPolicy") :=
  c5_policy_default sysC5dir
    { policyDir := "/w/pulumiPolicy", projectDir := "/proj", command := "preview"
      remainingArgs := [] }
    (by decide) (by decide) (by decide)

/-- System state for the C10 counterexample: `--policy-dir` is the final
token of argv, but it is immediately preceded by `--stack`, which
consumes it as a value. -/
def sysC10 : Sys :=
  { argv := ["--stack", "--policy-dir"]
    envPOLICY_DIR := "/pp"
    envPULUMI_PROJECT_DIR := "/proj"
    envPULUMI_STACK := ""
    cwd := "/w"
    dirname := "/app"
    fsExists := fun _ => false
    isDir := fun _ => true
    spawn := fun _ _ _ => SpawnOutcome.ok 0 }

/-- C10 counterexample: with argv `--stack --policy-dir`, the trailing
flag token is consumed as the value of the preceding `--stack` flag, so
the passthrough arguments stay empty — the token is not appended to them —
and the scanned stack becomes the literal `--policy-dir`. -/
theorem c10_counterexample :
    (parseArgsModel sysC10).map (fun c => c.remainingArgs) = some [] ∧
    scanArgs (initialState sysC10) sysC10.argv =
      { policyDir := "/pp", projectDir := "/proj", stack := "--policy-dir"
        command := "preview", remainingArgs := [] } := by
  decide

/-- C10 as amended: when the scanning loop reaches one of the wrapper
flags as the last remaining token — so the flag was not consumed as the
value of an immediately preceding flag and has no value token of its own —
the scanner does not read past the end of the input: the flag token is
appended to the passthrough arguments and every configuration field is
left unchanged. -/
theorem c10_trailing_flag (st : ParsedArgs) (f : String)
    (hf : f = "--policy-dir" ∨ f = "--project-dir" ∨ f = "--stack") :
    scanArgs st [f] = { st with remainingArgs := st.remainingArgs ++ [f] } := by
  have hc : ¬(commandList.contains f = true) := by
    rcases hf with h | h | h <;> subst h <;> decide
  unfold scanArgs
  rw [if_neg hc]

/-- Witness for the amended C10: a trailing `--stack` with environment
values in place is pushed to the passthrough arguments and no field
changes. -/
theorem c10_trailing_flag_witness :
    scanArgs
      { policyDir := "/pp", projectDir := "/proj", stack := "env-stack"
        command := "preview", remainingArgs := [] } ["--stack"] =
      { policyDir := "/pp", projectDir := "/proj", stack := "env-stack"
        command := "preview", remainingArgs := [] ++ ["--stack"] } :=
  c10_trailing_flag
    { policyDir := "/pp", projectDir := "/proj", stack := "env-stack"
      command := "preview", remainingArgs := [] }
    "--stack" (Or.inr (Or.inr rfl))
